import Mathlib

/-!
Shallow embedding of the feedback-collector server
(`feedback-collector` Express app) of the duplicate-logic-detector-action
repository, together with proofs about its reaction-aggregation logic.

Conventions of the embedding:
* JavaScript numbers that only ever hold non-negative integer counts and
  identifiers are modelled as `Nat`.
* `Math.round(x)` on a non-negative rational `num/den` is
  `floor(num/den + 1/2)`, i.e. `(2*num + den) / (2*den)` in `Nat` division
  (the exact-rational reading of the floating-point expression).
* The external HMAC-SHA256 primitive (`crypto.createHmac`) is an abstract
  parameter `hmacHex : String → String → String` producing the lowercase hex
  digest; a concrete executable stand-in `hmacModel` (64 hex characters) is
  used to evaluate closed statements.
* `crypto.timingSafeEqual` throws when the two buffers have different byte
  lengths; functions that can throw return `Except Unit _`.
* `Buffer.from(string)` yields the UTF-8 bytes of the string, whose length is
  `utf8Len`.
-/

/-- UTF-8 byte length of a string, the length of `Buffer.from(s)`. -/
def utf8Len (s : String) : Nat :=
  (s.data.map Char.utf8Size).sum

/-- One reaction event, as mapped by `fetchCommentReactions`:
`{ type: reaction.content, user: reaction.user.login, created_at: reaction.created_at }`. -/
structure Reaction where
  type : String
  user : String
  created_at : String
deriving DecidableEq

/-- The derived statistics block stored in `entry.stats`. -/
structure Stats where
  total : Nat
  positive : Nat
  negative : Nat
  satisfaction : Nat
deriving DecidableEq

/-- One record of the in-memory store `reactionData`, as built by
`handleCommentCreated`; `stats` is absent (`none`) until the first
successful refresh. -/
structure Entry where
  id : Nat
  timestamp : String
  repository : String
  issue_number : Nat
  comment_url : String
  author : String
  created_at : String
  body_preview : String
  reactions : List Reaction
  stats : Option Stats
  last_updated : String
deriving DecidableEq

/-- `Math.round(num/den)` for non-negative `num` and positive `den`:
round half up, i.e. `floor(num/den + 1/2)`. -/
def jsRound (num den : Nat) : Nat :=
  (2 * num + den) / (2 * den)

/-- The positive reaction types of `updateCommentReactions`:
`['+1', 'heart', 'rocket', 'hooray']`. -/
def positiveTypes : List String := ["+1", "heart", "rocket", "hooray"]

/-- The negative reaction types of `updateCommentReactions`:
`['-1', 'confused']`. -/
def negativeTypes : List String := ["-1", "confused"]

/-- The statistics computed by `updateCommentReactions` from a fetched
reaction list: filters by positive and negative type sets, and
`satisfaction = Math.round((positive.length / reactions.length) * 100)`
when the list is non-empty, else `0`. -/
def computeStats (reactions : List Reaction) : Stats :=
  let positive := reactions.filter (fun r => positiveTypes.contains r.type)
  let negative := reactions.filter (fun r => negativeTypes.contains r.type)
  { total := reactions.length
    positive := positive.length
    negative := negative.length
    satisfaction :=
      if reactions.length > 0 then jsRound (100 * positive.length) reactions.length
      else 0 }

/-- Helper: a partition count for two disjoint boolean predicates. -/
theorem length_filter_partition {α : Type} (p q : α → Bool) (l : List α)
    (h : ∀ a, p a = true → q a = false) :
    (l.filter p).length + (l.filter q).length
      + (l.filter (fun a => !p a && !q a)).length = l.length := by
  induction l with
  | nil => rfl
  | cons a t ih =>
    cases hp : p a with
    | true =>
      have hq : q a = false := h a hp
      simp [List.filter_cons, hp, hq]
      omega
    | false =>
      cases hq : q a with
      | true =>
        simp [List.filter_cons, hp, hq]
        omega
      | false =>
        simp [List.filter_cons, hp, hq]
        omega

/-- Helper: the two type sets are disjoint. -/
theorem positive_negative_disjoint (t : String) :
    positiveTypes.contains t = true → negativeTypes.contains t = false := by
  intro h
  have h1 : t ∈ positiveTypes := by simpa [positiveTypes] using h
  simp only [positiveTypes, List.mem_cons, List.not_mem_nil, or_false] at h1
  rcases h1 with h1 | h1 | h1 | h1 <;> subst h1 <;> simp [negativeTypes]

/-- Helper: `jsRound` of a fraction `num/den` with `num ≤ 100 * den` is
at most `100`. -/
theorem jsRound_le_100 (num den : Nat) (hden : 0 < den) (h : num ≤ 100 * den) :
    jsRound num den ≤ 100 := by
  unfold jsRound
  have h2 : 2 * num + den < 101 * (2 * den) := by omega
  have := (Nat.div_lt_iff_lt_mul (by omega : 0 < 2 * den)).2 h2
  omega

/-- C5: for every reaction sequence, the computed `Stats` satisfy
`total = positive + negative + (count classified as neither)`,
`satisfaction ≤ 100` (it is a `Nat`, hence also `≥ 0`), and
`satisfaction = 0` when `total = 0`. -/
theorem computeStats_invariants (rs : List Reaction) :
    (computeStats rs).total
        = (computeStats rs).positive + (computeStats rs).negative
          + (rs.filter (fun r =>
              !(positiveTypes.contains r.type) && !(negativeTypes.contains r.type))).length
      ∧ (computeStats rs).satisfaction ≤ 100
      ∧ ((computeStats rs).total = 0 → (computeStats rs).satisfaction = 0) := by
  refine ⟨?_, ?_, ?_⟩
  · have := length_filter_partition (fun r => positiveTypes.contains r.type)
      (fun r => negativeTypes.contains r.type) rs
      (fun r => positive_negative_disjoint r.type)
    simp only [computeStats] at this ⊢
    omega
  · by_cases h0 : rs.length = 0
    · simp [computeStats, h0]
    · have hpos : 0 < rs.length := Nat.pos_of_ne_zero h0
      have hfil : (rs.filter (fun r => positiveTypes.contains r.type)).length ≤ rs.length :=
        List.length_filter_le _ _
      simp only [computeStats, hpos, if_pos]
      exact jsRound_le_100 _ _ hpos (by omega)
  · intro h
    simp only [computeStats] at h ⊢
    simp [h]

/-- C5 witness: the invariants evaluated at the empty reaction list. -/
theorem computeStats_invariants_witness :
    (computeStats []).satisfaction = 0 :=
  (computeStats_invariants []).2.2 rfl

/-- Substring occurrence on character lists: `needle` occurs contiguously
somewhere in `hay`. -/
def listContainsSub (needle : List Char) : List Char → Bool
  | [] => needle.isEmpty
  | c :: rest => needle.isPrefixOf (c :: rest) || listContainsSub needle rest

/-- JavaScript `hay.includes(needle)`. -/
def strIncludes (hay needle : String) : Bool :=
  listContainsSub needle.data hay.data

/-- The comment classifier `isDuplicateDetectorComment`: a falsy (absent or
empty) body is not tracked; otherwise the body is tracked when it includes
any of the three marker substrings. -/
def isDuplicateDetectorComment (commentBody : Option String) : Bool :=
  match commentBody with
  | none => false
  | some body =>
    if body = "" then false
    else
      strIncludes body "🔍 Duplicate Logic Detection"
        || strIncludes body "duplicate-logic-detector-comment-"
        || strIncludes body "Help us improve! React with"

/-- The `comment` object of an `issue_comment` webhook payload. The `body`
field is `Option` because a delivery may omit it; the other fields are only
read after classification succeeds and are modelled as always present. -/
structure CommentData where
  id : Nat
  user_login : String
  created_at : String
  html_url : String
  body : Option String
deriving DecidableEq

/-- The parsed webhook payload `req.body`. `comment` is `Option` because a
payload may lack it entirely, in which case reading `comment.body` throws.
`issue.number` and `repository.full_name` are flattened into the structure. -/
structure Payload where
  action : String
  comment : Option CommentData
  issue_number : Nat
  repository_full_name : String
deriving DecidableEq

/-- The fresh record built by `handleCommentCreated`: empty `reactions`,
no `stats`, and a 100-character body preview. The two `new Date()` calls of
the source are modelled by the single clock value `now`. -/
def buildEntry (c : CommentData) (body : String) (p : Payload) (now : String) : Entry :=
  { id := c.id
    timestamp := now
    repository := p.repository_full_name
    issue_number := p.issue_number
    comment_url := c.html_url
    author := c.user_login
    created_at := c.created_at
    body_preview := body.take 100 ++ "..."
    reactions := []
    stats := none
    last_updated := now }

/-- The store mutation of `handleCommentCreated`: `findIndex` on the id,
then replace in place or push at the end. -/
def upsertEntry : List Entry → Entry → List Entry
  | [], e => [e]
  | x :: xs, e => if x.id == e.id then e :: xs else x :: upsertEntry xs e

/-- The webhook ingestion step `handleCommentCreated`. Destructuring a
payload without a `comment` object throws a `TypeError` when `comment.body`
is read (`Except.error`); an unclassified body is a silent no-op. When the
classifier succeeds the body is necessarily present, so `getD` never takes
its default. -/
def handleCommentCreated (store : List Entry) (p : Payload) (now : String) :
    Except Unit (List Entry) :=
  match p.comment with
  | none => .error ()
  | some c =>
    if isDuplicateDetectorComment c.body then
      .ok (upsertEntry store (buildEntry c (c.body.getD "") p now))
    else
      .ok store

/-- The in-place mutation of a found entry by `updateCommentReactions`:
replaces `reactions`, recomputes `stats`, refreshes `last_updated`. -/
def updateEntryReactions (e : Entry) (reactions : List Reaction) (now : String) : Entry :=
  { e with
    reactions := reactions
    last_updated := now
    stats := some (computeStats reactions) }

/-- Mutation of the first entry of the store carrying the given id, as done
through the reference returned by `reactionData.find`. -/
def setFirstWithId (store : List Entry) (commentId : Nat) (reactions : List Reaction)
    (now : String) : List Entry :=
  match store with
  | [] => []
  | x :: xs =>
    if x.id == commentId then updateEntryReactions x reactions now :: xs
    else x :: setFirstWithId xs commentId reactions now

/-- The single-record refresh `updateCommentReactions`. The outcome of the
external `fetchCommentReactions` call is the parameter `fetched` (`none`
models the `null` it returns on any transport or authorization error; the
JavaScript truthiness test `if (reactions)` accepts the empty array).
Returns the new store and the boolean result of the source function. -/
def updateCommentReactions (store : List Entry) (commentId : Nat)
    (fetched : Option (List Reaction)) (now : String) : List Entry × Bool :=
  match store.find? (fun e => e.id == commentId) with
  | none => (store, false)
  | some _ =>
    match fetched with
    | some reactions => (setFirstWithId store commentId reactions now, true)
    | none => (store, false)

/-- Loop of the `/update-all` endpoint over the ids of the store snapshot;
`fetched` gives the outcome of the external fetch for each comment id.
Returns the final store and the count of successful updates. -/
def updateAllGo (ids : List Nat) (store : List Entry)
    (fetched : Nat → Option (List Reaction)) (now : String) : List Entry × Nat :=
  match ids with
  | [] => (store, 0)
  | i :: rest =>
    let step := updateCommentReactions store i (fetched i) now
    let next := updateAllGo rest step.1 fetched now
    (next.1, (if step.2 then 1 else 0) + next.2)

/-- The `/update-all` batch refresh: iterates the entries of the store,
refreshing each by id. The iteration order is the id sequence of the store
at the start of the loop (updates never add, remove or re-identify
entries, so this matches the live iteration of the source). -/
def updateAll (store : List Entry) (fetched : Nat → Option (List Reaction))
    (now : String) : List Entry × Nat :=
  updateAllGo (store.map (fun e => e.id)) store fetched now

/-- Statistics block of the `/stats` aggregation read through the optional
chain `entry.stats?.total || 0`. -/
def statsTotalD (e : Entry) : Nat :=
  match e.stats with
  | some s => s.total
  | none => 0

/-- Read of `entry.stats?.positive || 0`. -/
def statsPositiveD (e : Entry) : Nat :=
  match e.stats with
  | some s => s.positive
  | none => 0

/-- Read of `entry.stats?.negative || 0`. -/
def statsNegativeD (e : Entry) : Nat :=
  match e.stats with
  | some s => s.negative
  | none => 0

/-- The response shape of the `/stats` endpoint. -/
structure GlobalStats where
  total_comments : Nat
  comments_with_reactions : Nat
  total_reactions : Nat
  positive_reactions : Nat
  negative_reactions : Nat
  overall_satisfaction : Nat
  engagement_rate : Nat
deriving DecidableEq

/-- The on-demand global aggregate of the `/stats` endpoint. A comment
counts as having reactions when `entry.stats && entry.stats.total > 0`;
the two ratios guard against empty denominators exactly as the source. -/
def globalStats (store : List Entry) : GlobalStats :=
  let totalComments := store.length
  let commentsWithReactions :=
    (store.filter (fun e =>
      match e.stats with
      | some s => decide (s.total > 0)
      | none => false)).length
  let totalReactions := (store.map statsTotalD).sum
  let totalPositive := (store.map statsPositiveD).sum
  let totalNegative := (store.map statsNegativeD).sum
  { total_comments := totalComments
    comments_with_reactions := commentsWithReactions
    total_reactions := totalReactions
    positive_reactions := totalPositive
    negative_reactions := totalNegative
    overall_satisfaction :=
      if totalReactions > 0 then jsRound (100 * totalPositive) totalReactions else 0
    engagement_rate :=
      if totalComments > 0 then jsRound (100 * commentsWithReactions) totalComments
      else 0 }

/-- The signature verifier `verifyGitHubSignature`. The HMAC-SHA256 hex
digest primitive is the abstract parameter `hmacHex secret message`. A falsy
(absent or empty) signature yields `false`; otherwise the source compares
UTF-8 buffers with `crypto.timingSafeEqual`, which throws (`Except.error`)
when the two byte lengths differ and otherwise returns byte equality. -/
def verifyGitHubSignature (hmacHex : String → String → String) (payload : String)
    (signature : Option String) (secret : String) : Except Unit Bool :=
  match signature with
  | none => .ok false
  | some sig =>
    if sig = "" then .ok false
    else
      let digest := "sha256=" ++ hmacHex secret payload
      if utf8Len sig = utf8Len digest then .ok (sig == digest)
      else .error ()

/-- The post-verification body of the `/webhook` endpoint: an
`issue_comment`/`created` event runs `handleCommentCreated` inside the
`try` block, answering 500 from the `catch` when it throws; every other
event or action is acknowledged with 200. Returns the HTTP status and the
resulting store. -/
def webhookProcess (store : List Entry) (event : String) (payload : Payload)
    (now : String) : Nat × List Entry :=
  if event == "issue_comment" && payload.action == "created" then
    match handleCommentCreated store payload now with
    | .ok store2 => (200, store2)
    | .error _ => (500, store)
  else (200, store)

/-- The full `/webhook` endpoint. `express.json` has already parsed the raw
request body into `payload`, and the handler re-serializes it with
`JSON.stringify(req.body)`; that re-serialization of `rawBody` is the
abstract parameter `canonical` (the round trip through the JSON parser),
so the verifier runs on `canonical rawBody`, not on `rawBody`. A throw
escaping the handler is answered by the framework with status 500. -/
def webhookPost (hmacHex : String → String → String) (canonical : String → String)
    (store : List Entry) (rawBody : String) (payload : Payload)
    (signature : Option String) (secret : String) (event : String) (now : String) :
    Nat × List Entry :=
  match verifyGitHubSignature hmacHex (canonical rawBody) signature secret with
  | .error _ => (500, store)
  | .ok false => (401, store)
  | .ok true => webhookProcess store event payload now

/-- The `/update-reactions` endpoint: 400 when `commentId` or `token` is
missing, then `updateCommentReactions`, answering 200 on success and 404 on
failure. -/
def updateReactionsPost (store : List Entry) (commentId : Option Nat)
    (token : Option String) (fetched : Option (List Reaction)) (now : String) :
    Nat × List Entry :=
  match commentId, token with
  | some cid, some _ =>
    let step := updateCommentReactions store cid fetched now
    if step.2 then (200, step.1) else (404, step.1)
  | _, _ => (400, store)

/-- Hexadecimal digit characters, lowercase as `digest('hex')`. -/
def hexDigitChar (n : Nat) : Char :=
  if n < 10 then Char.ofNat (48 + n) else Char.ofNat (87 + n)

/-- Little-endian hex digits of `n`, exactly `fuel` of them. -/
def natToHexLE (fuel n : Nat) : List Char :=
  match fuel with
  | 0 => []
  | k + 1 => hexDigitChar (n % 16) :: natToHexLE k (n / 16)

/-- Concrete executable stand-in for the HMAC-SHA256 hex digest used to
evaluate closed statements: a keyed polynomial hash modulo `2 ^ 256`
rendered as 64 hex characters. (The real primitive lives in the `crypto`
library outside this repository; every theorem that depends on properties
of the digest takes the digest function as a parameter, and this model is
only an instantiation for concrete evaluation.) -/
def hmacModel (secret msg : String) : String :=
  let h := ((secret ++ ":" ++ msg).data).foldl
    (fun acc c => (acc * 131 + c.toNat) % (2 ^ 256)) 5381
  String.mk (natToHexLE 64 h).reverse

/-- Concrete canonicalization stand-in used to evaluate closed statements
about the webhook endpoint: re-serializing a parsed JSON body drops
insignificant whitespace, modelled as removing space characters. -/
def stripSpaces (s : String) : String :=
  String.mk (s.data.filter (fun c => c ≠ ' '))

/-- A reaction of the given type from a fixed user, for concrete scenarios. -/
def reactionOf (t : String) : Reaction :=
  { type := t, user := "u", created_at := "t0" }

/-- The fetched sequence of Scenario B: `[+1, +1, -1]`. -/
def scenarioBReactions : List Reaction :=
  [reactionOf "+1", reactionOf "+1", reactionOf "-1"]

/-- A concrete tracked record with id 111 before any refresh. -/
def entry111 : Entry :=
  { id := 111
    timestamp := "t0"
    repository := "octo/repo"
    issue_number := 42
    comment_url := "https://example.invalid/c/111"
    author := "bot"
    created_at := "t0"
    body_preview := "p..."
    reactions := []
    stats := none
    last_updated := "t0" }

/-- Scenario D store: the refreshed Scenario B record next to a record with
no reactions and no stats. -/
def scenarioD : List Entry :=
  [updateEntryReactions entry111 scenarioBReactions "t1",
   { entry111 with id := 112 }]

/-- Helper: updating the first entry with an id preserves `find?` on that
id, returning the updated entry. -/
theorem setFirstWithId_find (cid : Nat) (rs : List Reaction) (now : String) :
    ∀ (store : List Entry) (e : Entry),
      store.find? (fun x => x.id == cid) = some e →
      (setFirstWithId store cid rs now).find? (fun x => x.id == cid)
        = some (updateEntryReactions e rs now) := by
  intro store
  induction store with
  | nil => intro e h; simp at h
  | cons x xs ih =>
    intro e h
    cases hx : (x.id == cid) with
    | true =>
      simp only [List.find?, hx] at h
      injection h with h
      subst h
      have hid : ((updateEntryReactions x rs now).id == cid) = true := by
        simpa [updateEntryReactions] using hx
      simp only [setFirstWithId, hx, if_pos, List.find?, hid]
    | false =>
      simp only [List.find?, hx] at h
      simp only [setFirstWithId, hx, Bool.false_eq_true, if_neg, not_false_iff,
        List.find?]
      exact ih e h

/-- C1: a successful single-record refresh returns `true` and stores, on the
refreshed record, exactly the statistics of the claim: `total` is the length
of the fetched sequence, `positive` counts types among `+1`, `heart`,
`rocket`, `hooray`, `negative` counts types among `-1`, `confused`, and
`satisfaction` is `round(100 * positive / total)` for `total > 0` and `0`
for `total = 0`; in particular the sequence `[+1, +1, -1]` yields
`total = 3`, `positive = 2`, `negative = 1`, `satisfaction = 67`. -/
theorem updateCommentReactions_stores_stats (store : List Entry) (cid : Nat)
    (e : Entry) (rs : List Reaction) (now : String)
    (hfind : store.find? (fun x => x.id == cid) = some e) :
    (updateCommentReactions store cid (some rs) now).2 = true
      ∧ ((updateCommentReactions store cid (some rs) now).1.find?
            (fun x => x.id == cid)).map (fun x => x.stats)
          = some (some
              { total := rs.length
                positive := rs.countP (fun r =>
                  r.type == "+1" || r.type == "heart" || r.type == "rocket"
                    || r.type == "hooray")
                negative := rs.countP (fun r => r.type == "-1" || r.type == "confused")
                satisfaction :=
                  if rs.length > 0 then
                    jsRound (100 * rs.countP (fun r =>
                      r.type == "+1" || r.type == "heart" || r.type == "rocket"
                        || r.type == "hooray")) rs.length
                  else 0 })
      ∧ computeStats scenarioBReactions
          = { total := 3, positive := 2, negative := 1, satisfaction := 67 } := by
  have hpos : ∀ r : Reaction, positiveTypes.contains r.type
      = (r.type == "+1" || r.type == "heart" || r.type == "rocket" || r.type == "hooray") := by
    intro r
    simp only [positiveTypes, List.contains, List.elem]
    cases r.type == "+1" <;> cases r.type == "heart" <;> cases r.type == "rocket" <;>
      cases r.type == "hooray" <;> rfl
  have hneg : ∀ r : Reaction, negativeTypes.contains r.type
      = (r.type == "-1" || r.type == "confused") := by
    intro r
    simp only [negativeTypes, List.contains, List.elem]
    cases r.type == "-1" <;> cases r.type == "confused" <;> rfl
  have hpc : rs.filter (fun r =>
        r.type == "+1" || r.type == "heart" || r.type == "rocket" || r.type == "hooray")
      = rs.filter (fun r => positiveTypes.contains r.type) :=
    List.filter_congr (fun r _ => (hpos r).symm)
  have hnc : rs.filter (fun r => r.type == "-1" || r.type == "confused")
      = rs.filter (fun r => negativeTypes.contains r.type) :=
    List.filter_congr (fun r _ => (hneg r).symm)
  refine ⟨?_, ?_, ?_⟩
  · simp [updateCommentReactions, hfind]
  · have hset := setFirstWithId_find cid rs now store e hfind
    simp only [updateCommentReactions, hfind]
    rw [hset]
    simp [updateEntryReactions, computeStats, List.countP_eq_length_filter, hpc, hnc]
  · decide

/-- C1 witness: the refresh of the concrete store `[entry111]` with the
Scenario B sequence. -/
theorem updateCommentReactions_stores_stats_witness :
    (updateCommentReactions [entry111] 111 (some scenarioBReactions) "t1").2 = true :=
  (updateCommentReactions_stores_stats [entry111] 111 entry111 scenarioBReactions "t1"
    (by decide)).1

/-- Helper: upserting an id that is not in the store appends the record. -/
theorem upsertEntry_append (e : Entry) :
    ∀ store : List Entry, store.countP (fun x => x.id == e.id) = 0 →
      upsertEntry store e = store ++ [e] := by
  intro store
  induction store with
  | nil => intro _; rfl
  | cons x xs ih =>
    intro h
    rw [List.countP_cons] at h
    have hx : (x.id == e.id) = false := by
      cases hx : (x.id == e.id) with
      | true => simp [hx] at h
      | false => rfl
    have hxs : xs.countP (fun x => x.id == e.id) = 0 := by
      simpa [hx] using h
    simp only [upsertEntry, hx, Bool.false_eq_true, if_neg, not_false_iff,
      List.cons_append, List.cons.injEq, true_and]
    exact ih hxs

/-- Helper: upserting an id whose unique occurrence is the last record
replaces that record in place. -/
theorem upsertEntry_replace (e old : Entry) (hid : old.id = e.id) :
    ∀ s1 : List Entry, s1.countP (fun x => x.id == e.id) = 0 →
      upsertEntry (s1 ++ [old]) e = s1 ++ [e] := by
  intro s1
  induction s1 with
  | nil =>
    intro _
    have hx : (old.id == e.id) = true := by simp [hid]
    simp [upsertEntry, hx]
  | cons x xs ih =>
    intro h
    rw [List.countP_cons] at h
    have hx : (x.id == e.id) = false := by
      cases hx : (x.id == e.id) with
      | true => simp [hx] at h
      | false => rfl
    have hxs : xs.countP (fun x => x.id == e.id) = 0 := by
      simpa [hx] using h
    simp only [List.cons_append, upsertEntry, hx, Bool.false_eq_true, if_neg,
      not_false_iff, List.cons.injEq, true_and]
    exact ih hxs

/-- C4: ingesting a classified notification for a previously-unseen id
appends exactly one new record; re-ingesting a notification with the same
comment id replaces that record wholesale with the fields of the second
notification, and the store still holds exactly one record with that id. -/
theorem handleCommentCreated_upsert (store : List Entry) (p p2 : Payload)
    (c c2 : CommentData) (now now2 : String)
    (hc : p.comment = some c) (hc2 : p2.comment = some c2) (hid : c2.id = c.id)
    (hb : isDuplicateDetectorComment c.body = true)
    (hb2 : isDuplicateDetectorComment c2.body = true)
    (hfresh : store.countP (fun x => x.id == c.id) = 0) :
    handleCommentCreated store p now
        = .ok (store ++ [buildEntry c (c.body.getD "") p now])
      ∧ handleCommentCreated (store ++ [buildEntry c (c.body.getD "") p now]) p2 now2
        = .ok (store ++ [buildEntry c2 (c2.body.getD "") p2 now2])
      ∧ (store ++ [buildEntry c2 (c2.body.getD "") p2 now2]).countP
          (fun x => x.id == c.id) = 1 := by
  have hfresh1 : store.countP (fun x => x.id == (buildEntry c (c.body.getD "") p now).id) = 0 :=
    hfresh
  have hfresh2 : store.countP (fun x => x.id == (buildEntry c2 (c2.body.getD "") p2 now2).id) = 0 := by
    show store.countP (fun x => x.id == c2.id) = 0
    rw [hid]
    exact hfresh
  refine ⟨?_, ?_, ?_⟩
  · simp only [handleCommentCreated, hc, hb, if_pos]
    rw [upsertEntry_append _ _ hfresh1]
  · simp only [handleCommentCreated, hc2, hb2, if_pos]
    rw [upsertEntry_replace (buildEntry c2 (c2.body.getD "") p2 now2)
      (buildEntry c (c.body.getD "") p now) (by show c.id = c2.id; rw [hid]) store hfresh2]
  · rw [List.countP_append, hfresh, List.countP_cons]
    have : ((buildEntry c2 (c2.body.getD "") p2 now2).id == c.id) = true := by
      show (c2.id == c.id) = true
      simp [hid]
    rw [this]
    simp

/-- Concrete classified comment for the C4 witness. -/
def commentC4 : CommentData :=
  { id := 111
    user_login := "dev"
    created_at := "t0"
    html_url := "https://example.invalid/c/111"
    body := some "Help us improve! React with 👍" }

/-- Concrete webhook payload for the C4 witness. -/
def payloadC4 : Payload :=
  { action := "created"
    comment := some commentC4
    issue_number := 42
    repository_full_name := "octo/repo" }

/-- Re-delivery of the same comment id with different fields. -/
def commentC4b : CommentData :=
  { commentC4 with
    created_at := "t2"
    body := some "🔍 Duplicate Logic Detection ready" }

/-- Payload of the re-delivery for the C4 witness. -/
def payloadC4b : Payload :=
  { payloadC4 with comment := some commentC4b }

/-- C4 witness: the two ingestions evaluated on the empty store. -/
theorem handleCommentCreated_upsert_witness :
    handleCommentCreated ([] : List Entry) payloadC4 "t0"
        = .ok ([] ++ [buildEntry commentC4 (commentC4.body.getD "") payloadC4 "t0"])
      ∧ handleCommentCreated
          (([] : List Entry) ++ [buildEntry commentC4 (commentC4.body.getD "") payloadC4 "t0"])
          payloadC4b "t1"
        = .ok (([] : List Entry) ++ [buildEntry commentC4b (commentC4b.body.getD "") payloadC4b "t1"])
      ∧ (([] : List Entry) ++ [buildEntry commentC4b (commentC4b.body.getD "") payloadC4b "t1"]).countP
          (fun x => x.id == commentC4.id) = 1 :=
  handleCommentCreated_upsert [] payloadC4 payloadC4b commentC4 commentC4b "t0" "t1"
    rfl rfl rfl (by decide) (by decide) (by decide)

/-- C6: a single-record refresh for an untracked id, or one whose external
fetch failed (`fetched = none`), returns `false` rather than throwing and
leaves the store exactly as it was; through the `/update-reactions`
endpoint the failed refresh is answered with 404 and the unchanged store. -/
theorem updateCommentReactions_failure_preserves_store (store : List Entry)
    (cid : Nat) (tok : String) (fetched : Option (List Reaction)) (now : String) :
    (store.find? (fun x => x.id == cid) = none →
        updateCommentReactions store cid fetched now = (store, false))
      ∧ updateCommentReactions store cid none now = (store, false)
      ∧ (store.find? (fun x => x.id == cid) = none →
        updateReactionsPost store (some cid) (some tok) fetched now = (404, store))
      ∧ updateReactionsPost store (some cid) (some tok) none now = (404, store) := by
  refine ⟨?_, ?_, ?_, ?_⟩
  · intro h
    simp [updateCommentReactions, h]
  · cases h : store.find? (fun x => x.id == cid) <;> simp [updateCommentReactions, h]
  · intro h
    simp [updateReactionsPost, updateCommentReactions, h]
  · cases h : store.find? (fun x => x.id == cid) <;>
      simp [updateReactionsPost, updateCommentReactions, h]

/-- C6 witness: refreshing the untracked id 999 on the concrete store
`[entry111]`. -/
theorem updateCommentReactions_failure_witness :
    updateCommentReactions [entry111] 999 (some scenarioBReactions) "t1"
        = ([entry111], false)
      ∧ updateReactionsPost [entry111] (some 999) (some "tok") (some scenarioBReactions) "t1"
        = (404, [entry111]) :=
  ⟨(updateCommentReactions_failure_preserves_store [entry111] 999 "tok"
      (some scenarioBReactions) "t1").1 (by decide),
   (updateCommentReactions_failure_preserves_store [entry111] 999 "tok"
      (some scenarioBReactions) "t1").2.2.1 (by decide)⟩

/-- The fields of a record that a refresh must not touch: everything except
`reactions`, `stats` and `last_updated`. -/
def sameFrame (a b : Entry) : Prop :=
  a.id = b.id ∧ a.timestamp = b.timestamp ∧ a.repository = b.repository
    ∧ a.issue_number = b.issue_number ∧ a.comment_url = b.comment_url
    ∧ a.author = b.author ∧ a.created_at = b.created_at
    ∧ a.body_preview = b.body_preview

/-- Helper: `sameFrame` is reflexive. -/
theorem sameFrame_refl (a : Entry) : sameFrame a a :=
  ⟨rfl, rfl, rfl, rfl, rfl, rfl, rfl, rfl⟩

/-- Helper: `sameFrame` is transitive. -/
theorem sameFrame_trans {a b c : Entry} (h1 : sameFrame a b) (h2 : sameFrame b c) :
    sameFrame a c :=
  ⟨h1.1.trans h2.1, h1.2.1.trans h2.2.1, h1.2.2.1.trans h2.2.2.1,
   h1.2.2.2.1.trans h2.2.2.2.1, h1.2.2.2.2.1.trans h2.2.2.2.2.1,
   h1.2.2.2.2.2.1.trans h2.2.2.2.2.2.1, h1.2.2.2.2.2.2.1.trans h2.2.2.2.2.2.2.1,
   h1.2.2.2.2.2.2.2.trans h2.2.2.2.2.2.2.2⟩

/-- Helper: pairwise `sameFrame` is reflexive on lists. -/
theorem forall2_sameFrame_refl : ∀ l : List Entry, List.Forall₂ sameFrame l l
  | [] => List.Forall₂.nil
  | a :: l => List.Forall₂.cons (sameFrame_refl a) (forall2_sameFrame_refl l)

/-- Helper: pairwise `sameFrame` is transitive on lists. -/
theorem forall2_sameFrame_trans :
    ∀ {a b c : List Entry}, List.Forall₂ sameFrame a b → List.Forall₂ sameFrame b c →
      List.Forall₂ sameFrame a c := by
  intro a
  induction a with
  | nil =>
    intro b c h1 h2
    cases h1
    cases h2
    exact List.Forall₂.nil
  | cons x xs ih =>
    intro b c h1 h2
    cases h1 with
    | cons hx hxs =>
      cases h2 with
      | cons hy hys => exact List.Forall₂.cons (sameFrame_trans hx hy) (ih hxs hys)

/-- Helper: mutating the first entry with an id keeps every frame field of
every record. -/
theorem setFirstWithId_frame (cid : Nat) (rs : List Reaction) (now : String) :
    ∀ store : List Entry, List.Forall₂ sameFrame store (setFirstWithId store cid rs now) := by
  intro store
  induction store with
  | nil => exact List.Forall₂.nil
  | cons x xs ih =>
    cases hx : (x.id == cid) with
    | true =>
      simp only [setFirstWithId, hx, if_pos]
      exact List.Forall₂.cons ⟨rfl, rfl, rfl, rfl, rfl, rfl, rfl, rfl⟩
        (forall2_sameFrame_refl xs)
    | false =>
      simp only [setFirstWithId, hx, Bool.false_eq_true, if_neg, not_false_iff]
      exact List.Forall₂.cons (sameFrame_refl x) ih

/-- Helper: a single-record refresh keeps every frame field of every
record. -/
theorem updateCommentReactions_frame (store : List Entry) (cid : Nat)
    (fetched : Option (List Reaction)) (now : String) :
    List.Forall₂ sameFrame store (updateCommentReactions store cid fetched now).1 := by
  cases hfind : store.find? (fun e => e.id == cid) with
  | none =>
    simp only [updateCommentReactions, hfind]
    exact forall2_sameFrame_refl store
  | some e =>
    cases fetched with
    | none =>
      simp only [updateCommentReactions, hfind]
      exact forall2_sameFrame_refl store
    | some rs =>
      simp only [updateCommentReactions, hfind]
      exact setFirstWithId_frame cid rs now store

/-- Helper: the batch loop keeps every frame field of every record. -/
theorem updateAllGo_frame (fetched : Nat → Option (List Reaction)) (now : String) :
    ∀ (ids : List Nat) (store : List Entry),
      List.Forall₂ sameFrame store (updateAllGo ids store fetched now).1 := by
  intro ids
  induction ids with
  | nil => intro store; exact forall2_sameFrame_refl store
  | cons i rest ih =>
    intro store
    simp only [updateAllGo]
    exact forall2_sameFrame_trans
      (updateCommentReactions_frame store i (fetched i) now)
      (ih (updateCommentReactions store i (fetched i) now).1)

/-- C8: a batch refresh returns a store of exactly the same length (so it
never increases the record count), and pairwise each record keeps its `id`,
`timestamp`, `repository`, `issue_number`, `comment_url`, `author`,
`created_at` and `body_preview`: only `reactions`, `stats` and
`last_updated` can change. -/
theorem updateAll_frame (store : List Entry) (fetched : Nat → Option (List Reaction))
    (now : String) :
    (updateAll store fetched now).1.length = store.length
      ∧ List.Forall₂ sameFrame store (updateAll store fetched now).1 := by
  have h := updateAllGo_frame fetched now (store.map (fun e => e.id)) store
  exact ⟨(List.Forall₂.length_eq h).symm, h⟩

/-- Helper: membership in the positive type set as a disjunction of
equality tests. -/
theorem contains_positive_eq (r : Reaction) :
    positiveTypes.contains r.type
      = (r.type == "+1" || r.type == "heart" || r.type == "rocket"
          || r.type == "hooray") := by
  simp only [positiveTypes, List.contains, List.elem]
  cases r.type == "+1" <;> cases r.type == "heart" <;> cases r.type == "rocket" <;>
    cases r.type == "hooray" <;> rfl

/-- Helper: membership in the negative type set as a disjunction of
equality tests. -/
theorem contains_negative_eq (r : Reaction) :
    negativeTypes.contains r.type = (r.type == "-1" || r.type == "confused") := by
  simp only [negativeTypes, List.contains, List.elem]
  cases r.type == "-1" <;> cases r.type == "confused" <;> rfl

/-- Well-formedness of a store state as produced by the server operations:
each record either carries the statistics of its own reaction list, or has
no statistics yet and then also no reactions. -/
def statsConsistent (store : List Entry) : Prop :=
  ∀ e ∈ store, e.stats = some (computeStats e.reactions)
    ∨ (e.stats = none ∧ e.reactions = [])

/-- C9: on a well-formed store the `/stats` aggregate reports
`total_comments` = record count, `comments_with_reactions` = count of
records with at least one reaction, the summed total/positive/negative
reaction counts, `overall_satisfaction = round(100 * positive / total)`
(0 without reactions) and `engagement_rate =
round(100 * commentsWithReactions / totalComments)` (0 without records);
in particular the two-record Scenario D store yields `totalComments = 2`,
`commentsWithReactions = 1` and `engagementRate = 50`. -/
theorem globalStats_spec (store : List Entry) (hwf : statsConsistent store) :
    (globalStats store).total_comments = store.length
      ∧ (globalStats store).comments_with_reactions
          = store.countP (fun e => !e.reactions.isEmpty)
      ∧ (globalStats store).total_reactions
          = (store.map (fun e => e.reactions.length)).sum
      ∧ (globalStats store).positive_reactions
          = (store.map (fun e => e.reactions.countP (fun r =>
              r.type == "+1" || r.type == "heart" || r.type == "rocket"
                || r.type == "hooray"))).sum
      ∧ (globalStats store).negative_reactions
          = (store.map (fun e => e.reactions.countP (fun r =>
              r.type == "-1" || r.type == "confused"))).sum
      ∧ (globalStats store).overall_satisfaction
          = (if (globalStats store).total_reactions = 0 then 0
             else jsRound (100 * (globalStats store).positive_reactions)
               (globalStats store).total_reactions)
      ∧ (globalStats store).engagement_rate
          = (if store.length = 0 then 0
             else jsRound (100 * (store.countP (fun e => !e.reactions.isEmpty)))
               store.length)
      ∧ globalStats scenarioD
          = { total_comments := 2
              comments_with_reactions := 1
              total_reactions := 3
              positive_reactions := 2
              negative_reactions := 1
              overall_satisfaction := 67
              engagement_rate := 50 } := by
  have hcw : (store.filter (fun e =>
        match e.stats with
        | some s => decide (s.total > 0)
        | none => false)).length
      = store.countP (fun e => !e.reactions.isEmpty) := by
    rw [← List.countP_eq_length_filter]
    refine List.countP_congr ?_
    intro e he
    rcases hwf e he with h1 | ⟨h1, h2⟩
    · rw [h1]
      simp only [computeStats]
      cases e.reactions <;> simp
    · rw [h1, h2]
      rfl
  have htot : store.map statsTotalD = store.map (fun e => e.reactions.length) := by
    refine List.map_congr_left ?_
    intro e he
    rcases hwf e he with h1 | ⟨h1, h2⟩
    · simp [statsTotalD, h1, computeStats]
    · simp [statsTotalD, h1, h2]
  have hpos : store.map statsPositiveD
      = store.map (fun e => e.reactions.countP (fun r =>
          r.type == "+1" || r.type == "heart" || r.type == "rocket"
            || r.type == "hooray")) := by
    refine List.map_congr_left ?_
    intro e he
    rcases hwf e he with h1 | ⟨h1, h2⟩
    · simp only [statsPositiveD, h1, computeStats, List.countP_eq_length_filter]
      exact (congrArg List.length
        (List.filter_congr (fun r _ => (contains_positive_eq r).symm))).symm
    · simp [statsPositiveD, h1, h2]
  have hneg : store.map statsNegativeD
      = store.map (fun e => e.reactions.countP (fun r =>
          r.type == "-1" || r.type == "confused")) := by
    refine List.map_congr_left ?_
    intro e he
    rcases hwf e he with h1 | ⟨h1, h2⟩
    · simp only [statsNegativeD, h1, computeStats, List.countP_eq_length_filter]
      exact (congrArg List.length
        (List.filter_congr (fun r _ => (contains_negative_eq r).symm))).symm
    · simp [statsNegativeD, h1, h2]
  refine ⟨rfl, hcw, ?_, ?_, ?_, ?_, ?_, by decide⟩
  · simp only [globalStats]
    rw [htot]
  · simp only [globalStats]
    rw [hpos]
  · simp only [globalStats]
    rw [hneg]
  · simp only [globalStats]
    by_cases h : (store.map statsTotalD).sum = 0
    · simp [h]
    · have hp : 0 < (store.map statsTotalD).sum := Nat.pos_of_ne_zero h
      simp [h, hp]
  · simp only [globalStats]
    rw [hcw]
    by_cases h : store.length = 0
    · simp [h]
    · have hp : 0 < store.length := Nat.pos_of_ne_zero h
      simp [h, hp]

/-- C9 witness: the aggregate of the concrete Scenario D store. -/
theorem globalStats_spec_witness :
    (globalStats scenarioD).engagement_rate
      = (if scenarioD.length = 0 then 0
         else jsRound (100 * (scenarioD.countP (fun e => !e.reactions.isEmpty)))
           scenarioD.length) :=
  (globalStats_spec scenarioD (by unfold statsConsistent; decide)).2.2.2.2.2.2.1

/-- Helper: UTF-8 byte length is additive over concatenation. -/
theorem utf8Len_append (a b : String) : utf8Len (a ++ b) = utf8Len a + utf8Len b := by
  simp [utf8Len, String.data_append]

/-- Helper: strings with equal character data are equal. -/
theorem string_eq_of_data (a b : String) (h : a.data = b.data) : a = b := by
  cases a
  cases b
  exact congrArg String.mk h

/-- Helper: string concatenation cancels on the left. -/
theorem string_append_cancel_left (a b c : String) (h : a ++ b = a ++ c) : b = c := by
  have hd := congrArg String.data h
  rw [String.data_append, String.data_append] at hd
  exact string_eq_of_data _ _ (List.append_cancel_left hd)

/-- Helper: a string of positive byte length is not empty. -/
theorem ne_empty_of_utf8Len_ne_zero (s : String) (h : utf8Len s ≠ 0) : s ≠ "" := by
  intro he
  subst he
  exact h rfl

/-- Helper: the byte length of a digest string `sha256=` + hex. -/
theorem utf8Len_sha256_digest (h : String) :
    utf8Len ("sha256=" ++ h) = 7 + utf8Len h := by
  rw [utf8Len_append]
  have h7 : utf8Len "sha256=" = 7 := by decide
  rw [h7]

/-- C7: verifying a payload against the signature correctly derived from it
succeeds; a signature that differs from the correct one while keeping its
byte length (as any single-byte flip does) is rejected; and a changed
payload whose digest differs from the original's (the content of a
single-byte payload flip under a collision-free digest) is rejected when
checked against the original signature. -/
theorem verifyGitHubSignature_flip (hmacHex : String → String → String)
    (payload payload2 secret sig2 : String) :
    verifyGitHubSignature hmacHex payload
        (some ("sha256=" ++ hmacHex secret payload)) secret = .ok true
      ∧ (sig2 ≠ "sha256=" ++ hmacHex secret payload →
          utf8Len sig2 = utf8Len ("sha256=" ++ hmacHex secret payload) →
          verifyGitHubSignature hmacHex payload (some sig2) secret = .ok false)
      ∧ (hmacHex secret payload2 ≠ hmacHex secret payload →
          utf8Len (hmacHex secret payload2) = utf8Len (hmacHex secret payload) →
          verifyGitHubSignature hmacHex payload2
            (some ("sha256=" ++ hmacHex secret payload)) secret = .ok false) := by
  have hdne : ("sha256=" ++ hmacHex secret payload) ≠ "" :=
    ne_empty_of_utf8Len_ne_zero _ (by rw [utf8Len_sha256_digest]; omega)
  refine ⟨?_, ?_, ?_⟩
  · simp [verifyGitHubSignature, hdne]
  · intro hne hlen
    have hs : sig2 ≠ "" := by
      refine ne_empty_of_utf8Len_ne_zero _ ?_
      rw [hlen, utf8Len_sha256_digest]
      omega
    have hbeq : (sig2 == ("sha256=" ++ hmacHex secret payload)) = false :=
      beq_eq_false_iff_ne.mpr hne
    simp [verifyGitHubSignature, hs, hlen, hbeq]
  · intro hne hlen
    have hlen2 : utf8Len ("sha256=" ++ hmacHex secret payload)
        = utf8Len ("sha256=" ++ hmacHex secret payload2) := by
      rw [utf8Len_sha256_digest, utf8Len_sha256_digest, hlen]
    have hne2 : ("sha256=" ++ hmacHex secret payload)
        ≠ ("sha256=" ++ hmacHex secret payload2) := by
      intro he
      exact hne (string_append_cancel_left _ _ _ he).symm
    have hbeq : (("sha256=" ++ hmacHex secret payload)
        == ("sha256=" ++ hmacHex secret payload2)) = false :=
      beq_eq_false_iff_ne.mpr hne2
    simp [verifyGitHubSignature, hdne, hlen2, hbeq]

/-- C7 witness: the three cases of the flip theorem evaluated on concrete
payloads `abc`/`abd` (digests differ) with the concrete digest model. -/
theorem verifyGitHubSignature_flip_witness :
    verifyGitHubSignature hmacModel "abc"
        (some ("sha256=" ++ hmacModel "k" "abc")) "k" = .ok true
      ∧ verifyGitHubSignature hmacModel "abc"
        (some ("sha256=" ++ hmacModel "k" "abd")) "k" = .ok false
      ∧ verifyGitHubSignature hmacModel "abd"
        (some ("sha256=" ++ hmacModel "k" "abc")) "k" = .ok false := by
  have h := verifyGitHubSignature_flip hmacModel "abc" "abd" "k"
    ("sha256=" ++ hmacModel "k" "abd")
  exact ⟨h.1, h.2.1 (by decide) (by decide), h.2.2 (by decide) (by decide)⟩

/-- C3: the verifier returns `false` (not verified) for an absent
signature, but a present malformed signature whose byte length differs from
the expected 71-byte digest string makes `crypto.timingSafeEqual` throw a
`RangeError` instead of returning `false` - the verifier is not
exception-free on malformed input. -/
theorem verifyGitHubSignature_throws_on_malformed :
    verifyGitHubSignature hmacModel "payload" none "secret" = .ok false
      ∧ verifyGitHubSignature hmacModel "payload" (some "abc") "secret" = .error () := by
  exact ⟨rfl, rfl⟩

/-- Concrete raw webhook body for the C2 evaluation: a JSON document with
insignificant whitespace, which its parse/stringify round trip removes. -/
def rawC2 : String := "\x7b \"action\": \"created\" \x7d"

/-- Concrete parsed payload standing for `req.body` in the C2 evaluation
(not consulted: the requests are rejected or acknowledged before use). -/
def payloadC2 : Payload :=
  { action := "created"
    comment := none
    issue_number := 1
    repository_full_name := "octo/repo" }

set_option maxRecDepth 8192 in
/-- C2: the webhook endpoint does not verify the HMAC over the raw request
body: `express.json` parses the body first and the digest is computed over
`JSON.stringify(req.body)`. Concretely, for a raw body whose
re-serialization differs (here: whitespace), the signature correctly
computed over the raw bytes is rejected with 401, while the signature
computed over the re-serialized body is accepted. -/
theorem webhookPost_hmac_after_parse :
    stripSpaces rawC2 ≠ rawC2
      ∧ webhookPost hmacModel stripSpaces [] rawC2 payloadC2
          (some ("sha256=" ++ hmacModel "sec" rawC2)) "sec" "push" "t0" = (401, [])
      ∧ webhookPost hmacModel stripSpaces [] rawC2 payloadC2
          (some ("sha256=" ++ hmacModel "sec" (stripSpaces rawC2))) "sec" "push" "t0"
        = (200, []) := by
  refine ⟨by decide, by decide, by decide⟩

/-- C10: for a webhook request that passed signature verification with
event `issue_comment` and action `created`, a payload without a `comment`
object makes `handleCommentCreated` throw on reading `comment.body`, which
the endpoint's catch answers with status 500; a `comment` without a `body`
is classified as not tracked and acknowledged with 200 as a silent no-op.
In both cases the record store is unchanged and the process survives. -/
theorem webhookPost_malformed_comment (hmacHex : String → String → String)
    (canonical : String → String) (store : List Entry) (rawBody : String)
    (payload : Payload) (signature : Option String) (secret : String) (now : String)
    (hsig : verifyGitHubSignature hmacHex (canonical rawBody) signature secret = .ok true)
    (hact : payload.action = "created") :
    (payload.comment = none →
        webhookPost hmacHex canonical store rawBody payload signature secret
          "issue_comment" now = (500, store))
      ∧ (∀ c, payload.comment = some c → c.body = none →
        webhookPost hmacHex canonical store rawBody payload signature secret
          "issue_comment" now = (200, store)) := by
  constructor
  · intro hnone
    simp [webhookPost, hsig, webhookProcess, hact, handleCommentCreated, hnone]
  · intro c hc hbody
    simp [webhookPost, hsig, webhookProcess, hact, handleCommentCreated, hc, hbody,
      isDuplicateDetectorComment]

/-- Concrete payload without a `comment` object for the C10 witness. -/
def payloadC10a : Payload :=
  { action := "created"
    comment := none
    issue_number := 7
    repository_full_name := "octo/repo" }

/-- Concrete comment without a `body` for the C10 witness. -/
def commentC10 : CommentData :=
  { id := 5
    user_login := "dev"
    created_at := "t0"
    html_url := "https://example.invalid/c/5"
    body := none }

/-- Concrete payload whose comment lacks a `body` for the C10 witness. -/
def payloadC10b : Payload :=
  { payloadC10a with comment := some commentC10 }

set_option maxRecDepth 8192 in
/-- C10 witness: the two malformed-payload cases evaluated on the concrete
store `[entry111]` with a signature that verifies. -/
theorem webhookPost_malformed_comment_witness :
    webhookPost hmacModel stripSpaces [entry111] "x" payloadC10a
        (some ("sha256=" ++ hmacModel "s" (stripSpaces "x"))) "s" "issue_comment" "t1"
      = (500, [entry111])
      ∧ webhookPost hmacModel stripSpaces [entry111] "x" payloadC10b
        (some ("sha256=" ++ hmacModel "s" (stripSpaces "x"))) "s" "issue_comment" "t1"
      = (200, [entry111]) :=
  ⟨(webhookPost_malformed_comment hmacModel stripSpaces [entry111] "x" payloadC10a
      (some ("sha256=" ++ hmacModel "s" (stripSpaces "x"))) "s" "t1" (by rfl) rfl).1 rfl,
   (webhookPost_malformed_comment hmacModel stripSpaces [entry111] "x" payloadC10b
      (some ("sha256=" ++ hmacModel "s" (stripSpaces "x"))) "s" "t1" (by rfl) rfl).2
     commentC10 rfl rfl⟩
